import Mathlib

/-!
Shallow embedding of the SiriusXM ETL pipeline jobs, together with proofs of
the spec claims about them.

The embedding covers:
* the batch-audit-detail lifecycle (`Job_Frmwrk_EDW_BATCH_DETAIL_START` /
  `Job_Frmwrk_EDW_BATCH_DETAIL_CLOSE`, jobs 1 and 6);
* the consumption-detail job `Job_EDW_ST_CNSMPTN_CMN_DIM_US_STG_TO_SUBS_DTL`
  (job 5): IDL date-range resolution, the cutoff-date query, the TRIP and
  CONSUMPTION transformation paths with their ranking deduplication, the
  subscription-detail load and the record counting;
* CLI parameter validation (`argument_utils.validate_job_params`) and the
  top-level Glue entry point (`job_7/main.py`);
* the mutable run `Context` object (`job_11/src/context.py`).

Database tables are modelled as Lean lists of structure values, SQL statements
as pure functions on those lists, and timestamps produced by `current_timestamp`
/ `sysdate` as explicit clock parameters.  Fallible Python code is modelled
with `Option` / `Except`.
-/

namespace S2P

/-! ## Generic list helpers (SQL building blocks) -/

/-- SQL `DISTINCT` / `GROUP BY` key enumeration.  SQL leaves the enumeration
order unspecified; this model fixes it as `List.dedup` order. -/
def distinctKeys {α : Type} [DecidableEq α] (l : List α) : List α := l.dedup

/-- SQL `LEFT OUTER JOIN`: every left row is kept; a left row with no matching
right row is paired with `none` (NULL right columns), otherwise one output row
per matching right row. -/
def leftJoin {α β : Type} (l : List α) (r : List β) (cond : α → β → Bool) :
    List (α × Option β) :=
  l.flatMap fun a =>
    match r.filter (cond a) with
    | [] => [(a, none)]
    | ms => ms.map (fun b => (a, some b))

/-! ## Section A: batch audit detail lifecycle (jobs 1 and 6)

`edw_ods.batch_audit_detail` rows.  `batch_detail_id` is the identity column;
timestamps are abstract clock values (`Nat`).  Columns that the INSERT leaves
NULL are `Option`-typed and start as `none`. -/

structure DetailRow where
  batch_detail_id : Nat
  batch_id : Nat
  job_nm : String
  process_status_cd : String
  batch_detail_start_ts : Nat
  batch_detail_end_ts : Option Nat
  file_nm : String
  file_rcvd_ts : Option String
  file_size_in_bytes_qty : Option Int
  src_table_nm : String
  tgt_table_nm : String
  src_rec_qty : Option Int
  ins_rec_qty : Option Int
  upd_rec_qty : Option Int
  err_rec_qty : Option Int
  deriving Repr, DecidableEq

/-- The `batch_audit_detail` table. -/
abbrev AuditDb := List DetailRow

/-- Largest `batch_detail_id` present (0 for the empty table); the identity
column assigns `maxDetailId db + 1` to a freshly inserted row. -/
def maxDetailId (db : AuditDb) : Nat :=
  db.foldr (fun r m => max r.batch_detail_id m) 0

/-- The row inserted by `insert_batch_audit_detail` (job 1, `main_job.py`):
status `In Progress`, start timestamp `now`, file name `N/A`, all
close-time columns NULL. -/
def startRow (db : AuditDb) (batch_id : Nat) (job_name src_table_nm tgt_table_nm : String)
    (now : Nat) : DetailRow :=
  { batch_detail_id := maxDetailId db + 1
    batch_id := batch_id
    job_nm := job_name
    process_status_cd := "In Progress"
    batch_detail_start_ts := now
    batch_detail_end_ts := none
    file_nm := "N/A"
    file_rcvd_ts := none
    file_size_in_bytes_qty := none
    src_table_nm := src_table_nm
    tgt_table_nm := tgt_table_nm
    src_rec_qty := none
    ins_rec_qty := none
    upd_rec_qty := none
    err_rec_qty := none }

/-- `insert_batch_audit_detail` (job 1, `main_job.py` lines 47-73):
`insert into edw_ods.batch_audit_detail (...) values (..., 'In Progress',
current_timestamp, 'N/A', ...)`. -/
def insert_batch_audit_detail (db : AuditDb) (batch_id : Nat)
    (job_name src_table_nm tgt_table_nm : String) (now : Nat) : AuditDb :=
  db ++ [startRow db batch_id job_name src_table_nm tgt_table_nm now]

/-- Does a row match `JOB_NM = job_name and PROCESS_STATUS_CD = 'In Progress'`? -/
def inProgressFor (job_name : String) (r : DetailRow) : Bool :=
  r.job_nm == job_name && r.process_status_cd == "In Progress"

/-- `get_batch_detail_id` (job 6, `Job_Frmwrk_EDW_BATCH_DETAIL_CLOSE/main_job.py`
lines 14-46): `select max(batch_detail_id) ... where JOB_NM = '{job_name}' and
PROCESS_STATUS_CD = 'In Progress'`.  SQL `MAX` over no rows is NULL, and the
Python wrapper treats both NULL and 0 as not found (`if result and result[0]`),
raising `ValueError`; both cases are `none` here. -/
def get_batch_detail_id (db : AuditDb) (job_name : String) : Option Nat :=
  match (db.filter (inProgressFor job_name)).map (fun r => r.batch_detail_id) with
  | [] => none
  | ids =>
    let m := ids.foldr max 0
    if m == 0 then none else some m

/-- The close-time update applied to the row whose id matches
(`update_batch_audit_detail`): status `Complete`, end timestamp, file metadata
(with the Python truthiness defaults: empty file name becomes `N/A`, empty
received-timestamp becomes NULL) and the four row-count columns. -/
def closeRow (r : DetailRow) (src_rec_qty ins_rec_qty upd_rec_qty err_rec_qty : Int)
    (file_nm : String) (file_rcvd_ts : Option String) (file_size : Option Int)
    (now : Nat) : DetailRow :=
  { r with
    process_status_cd := "Complete"
    batch_detail_end_ts := some now
    file_nm := if file_nm == "" then "N/A" else file_nm
    file_rcvd_ts := match file_rcvd_ts with
      | none => none
      | some s => if s == "" then none else some s
    file_size_in_bytes_qty := file_size
    src_rec_qty := some src_rec_qty
    ins_rec_qty := some ins_rec_qty
    upd_rec_qty := some upd_rec_qty
    err_rec_qty := some err_rec_qty }

/-- `update_batch_audit_detail` (job 6, `main_job.py` lines 48-96):
`UPDATE edw_ods.batch_audit_detail SET ... WHERE batch_detail_id = {id}`. -/
def update_batch_audit_detail (db : AuditDb) (batch_detail_id : Nat)
    (src_rec_qty ins_rec_qty upd_rec_qty err_rec_qty : Int)
    (file_nm : String) (file_rcvd_ts : Option String) (file_size : Option Int)
    (now : Nat) : AuditDb :=
  db.map fun r =>
    if r.batch_detail_id == batch_detail_id then
      closeRow r src_rec_qty ins_rec_qty upd_rec_qty err_rec_qty file_nm
        file_rcvd_ts file_size now
    else r

/-- At most one `In Progress` row per job name (§3 invariant of the spec). -/
def InvUniqueInProgress (db : AuditDb) : Prop :=
  ∀ j : String, (db.filter (inProgressFor j)).length ≤ 1

/-- One audit-lifecycle operation on the `batch_audit_detail` table, under
single-flight execution per job name: `start` is the Detail-Start insert, fired
only when no `In Progress` row for that job name exists (the single-flight
assumption of the spec), and `close` is the Detail-Close lookup-then-update. -/
inductive AuditStep : AuditDb → AuditDb → Prop
  | start (db : AuditDb) (batch_id : Nat) (job_name src tgt : String) (now : Nat)
      (hguard : db.filter (inProgressFor job_name) = []) :
      AuditStep db (insert_batch_audit_detail db batch_id job_name src tgt now)
  | close (db : AuditDb) (job_name : String) (did : Nat)
      (s i u e : Int) (fn : String) (frt : Option String) (fs : Option Int) (now : Nat)
      (hget : get_batch_detail_id db job_name = some did) :
      AuditStep db (update_batch_audit_detail db did s i u e fn frt fs now)

/-- States of `batch_audit_detail` reachable from the empty table by
audit-lifecycle operations. -/
inductive AuditReachable : AuditDb → Prop
  | init : AuditReachable []
  | step {db db' : AuditDb} : AuditReachable db → AuditStep db db' → AuditReachable db'

/-! ## Section B: IDL date-range resolution (job 5, `set_date_range_idl`)

`set_date_range_idl` parses its two arguments with
`datetime.strptime(ts, "%Y-%m-%d %H:%M:%S")` and re-renders the date part with
`strftime("%Y-%m-%d")`.  Timestamp strings are parsed character by character in
the canonical zero-padded shape the format string describes (CPython's
additional tolerance for non-zero-padded fields lies outside the claims'
domain).  A parse failure is `strptime` raising `ValueError`, i.e. `none`. -/

/-- Numeric value of a digit character. -/
def digitVal (c : Char) : Nat := c.toNat - 48

/-- Consume one decimal digit (`strptime`'s `\d`, i.e. a character with code
point 48-57). -/
def readDigit : List Char → Option (Nat × List Char)
  | [] => none
  | c :: rest =>
    if 48 ≤ c.toNat ∧ c.toNat ≤ 57 then some (digitVal c, rest) else none

/-- Consume a two-digit zero-padded field (`%m`, `%d`, `%H`, `%M`, `%S`). -/
def read2 (l : List Char) : Option (Nat × List Char) :=
  match readDigit l with
  | none => none
  | some (a, l1) =>
    match readDigit l1 with
    | none => none
    | some (b, l2) => some (10 * a + b, l2)

/-- Consume a four-digit zero-padded year (`%Y`). -/
def read4 (l : List Char) : Option (Nat × List Char) :=
  match read2 l with
  | none => none
  | some (a, l1) =>
    match read2 l1 with
    | none => none
    | some (b, l2) => some (100 * a + b, l2)

/-- Consume one expected literal character of the format string. -/
def expectCh (c : Char) : List Char → Option (List Char)
  | [] => none
  | x :: rest => if x = c then some rest else none

/-- Gregorian leap year (as in Python's `datetime` proleptic calendar). -/
def isLeapYear (y : Nat) : Bool :=
  (y % 4 == 0 && y % 100 != 0) || y % 400 == 0

/-- Number of days in a month (with `daysInMonth y 2` honouring leap years). -/
def daysInMonth (y m : Nat) : Nat :=
  if m == 2 then (if isLeapYear y then 29 else 28)
  else if m == 4 || m == 6 || m == 9 || m == 11 then 30
  else 31

/-- A parsed `datetime` value. -/
structure DateTimeVal where
  year : Nat
  month : Nat
  day : Nat
  hour : Nat
  minute : Nat
  second : Nat
  deriving Repr, DecidableEq

/-- Range validation performed by `datetime.strptime` /  the `datetime`
constructor: `MINYEAR <= year`, month 1-12, day valid for the month,
hour 0-23, minute 0-59, second 0-59. -/
def validDateTime (v : DateTimeVal) : Bool :=
  1 ≤ v.year && 1 ≤ v.month && v.month ≤ 12 &&
  1 ≤ v.day && v.day ≤ daysInMonth v.year v.month &&
  v.hour ≤ 23 && v.minute ≤ 59 && v.second ≤ 59

/-- `datetime.strptime(ts, "%Y-%m-%d %H:%M:%S")` on the character list of the
input: each directive of the format string is consumed in turn, the whole
string must be consumed, and the parsed fields must pass the `datetime`
range validation. -/
def parseTs (l : List Char) : Option DateTimeVal :=
  match read4 l with
  | none => none
  | some (y, l1) =>
    match expectCh '-' l1 with
    | none => none
    | some l2 =>
      match read2 l2 with
      | none => none
      | some (mo, l3) =>
        match expectCh '-' l3 with
        | none => none
        | some l4 =>
          match read2 l4 with
          | none => none
          | some (d, l5) =>
            match expectCh ' ' l5 with
            | none => none
            | some l6 =>
              match read2 l6 with
              | none => none
              | some (h, l7) =>
                match expectCh ':' l7 with
                | none => none
                | some l8 =>
                  match read2 l8 with
                  | none => none
                  | some (mi, l9) =>
                    match expectCh ':' l9 with
                    | none => none
                    | some l10 =>
                      match read2 l10 with
                      | none => none
                      | some (s, l11) =>
                        match l11 with
                        | _ :: _ => none
                        | [] =>
                          if validDateTime ⟨y, mo, d, h, mi, s⟩ then
                            some ⟨y, mo, d, h, mi, s⟩
                          else none

/-- Zero-padded two-digit rendering (`%m`, `%d`). -/
def pad2 (n : Nat) : List Char :=
  [Char.ofNat (48 + n / 10 % 10), Char.ofNat (48 + n % 10)]

/-- Zero-padded four-digit rendering (`%Y` for years below 10000). -/
def pad4 (n : Nat) : List Char :=
  pad2 (n / 100 % 100) ++ pad2 (n % 100)

/-- `strftime("%Y-%m-%d")` on a parsed value. -/
def formatDateChars (v : DateTimeVal) : List Char :=
  pad4 v.year ++ '-' :: pad2 v.month ++ '-' :: pad2 v.day

/-- The canonical `"%Y-%m-%d %H:%M:%S"` rendering of a parsed value (the shape
`parseTs` consumes). -/
def formatTsChars (v : DateTimeVal) : List Char :=
  formatDateChars v ++ ' ' :: pad2 v.hour ++ ':' :: pad2 v.minute ++ ':' :: pad2 v.second

/-- `set_date_range_idl` (job 5, `main_job.py` lines 15-35): parse both
execution timestamps and return their date parts, or fail (the raised
exception) when either does not parse. -/
def set_date_range_idl (start_exec_ts end_exec_ts : String) : Option (String × String) := do
  let ps ← parseTs start_exec_ts.data
  let pe ← parseTs end_exec_ts.data
  pure (⟨formatDateChars ps⟩, ⟨formatDateChars pe⟩)

/-! ## Section C: non-IDL cutoff-date resolution (job 5, `get_cutoff_dates`)

Calendar dates with real month lengths: the SQL uses `::DATE`,
`ADD_MONTHS(ts,-1)`, `DATE_TRUNC('month',...)`, `dateadd(day,1,...)` and date
comparison.  Only the date part of `start_exec_ts` influences the selected
output columns, so process-control timestamps are modelled by their dates. -/

structure CalDate where
  year : Nat
  month : Nat
  day : Nat
  deriving Repr, DecidableEq

/-- Date comparison (lexicographic on year, month, day). -/
def calLe (a b : CalDate) : Bool :=
  a.year < b.year ||
  (a.year == b.year && (a.month < b.month ||
    (a.month == b.month && a.day ≤ b.day)))

/-- `dateadd(day, 1, d)`. -/
def nextDay (d : CalDate) : CalDate :=
  if d.day < daysInMonth d.year d.month then ⟨d.year, d.month, d.day + 1⟩
  else if d.month < 12 then ⟨d.year, d.month + 1, 1⟩
  else ⟨d.year + 1, 1, 1⟩

/-- Year and month of `ADD_MONTHS(ts, -1)` (`ADD_MONTHS` only clamps the day,
which the query immediately discards via `date_part` / `DATE_TRUNC`). -/
def prevMonthYM (d : CalDate) : Nat × Nat :=
  if d.month == 1 then (d.year - 1, 12) else (d.year, d.month - 1)

/-- `DATE_TRUNC('month', ADD_MONTHS(ts,-1))::date`. -/
def firstDayOfPrevMonth (d : CalDate) : CalDate :=
  ⟨(prevMonthYM d).1, (prevMonthYM d).2, 1⟩

/-- `DATE_TRUNC('month', start_exec_ts)::date`. -/
def firstDayOfCurrMonth (d : CalDate) : CalDate :=
  ⟨d.year, d.month, 1⟩

/-- SQL `MAX` of two dates. -/
def calMax (a b : CalDate) : CalDate := if calLe a b then b else a

/-- A row of `edw_ods.process_control` restricted to the columns the query
reads (`process_nm` filter, `start_exec_ts` whose date part drives everything). -/
structure ProcessControlRow where
  process_nm : String
  start_exec_dt : CalDate
  deriving Repr, DecidableEq

/-- A row of `edw_ods.consumption_cutoff`. -/
structure CutoffRow where
  brdcst_year_nbr : Nat
  brdcst_month_nbr : Nat
  cnsmptn_cutoff_dt : CalDate
  deriving Repr, DecidableEq

/-- The cutoff rows joined to a process-control row:
`PC.PREV_MONTH_YEAR = COFF.brdcst_year_nbr AND PC.PREV_MONTH = COFF.brdcst_month_nbr`. -/
def cutoffMatches (coff : List CutoffRow) (pc : ProcessControlRow) : List CutoffRow :=
  coff.filter fun c =>
    c.brdcst_year_nbr == (prevMonthYM pc.start_exec_dt).1 &&
    c.brdcst_month_nbr == (prevMonthYM pc.start_exec_dt).2

/-- The `(from_dt, to_dt)` columns the outer SELECT computes for one
process-control row (`none` when the inner join finds no cutoff row, in which
case the row is dropped). -/
def cutoffRowResult (coff : List CutoffRow) (pc : ProcessControlRow) :
    Option (CalDate × CalDate) :=
  match cutoffMatches coff pc with
  | [] => none
  | c :: cs =>
    let cutoff := cs.foldl (fun acc r => calMax acc r.cnsmptn_cutoff_dt) c.cnsmptn_cutoff_dt
    let from_dt :=
      if calLe pc.start_exec_dt (nextDay cutoff) then firstDayOfPrevMonth pc.start_exec_dt
      else firstDayOfCurrMonth pc.start_exec_dt
    some (from_dt, pc.start_exec_dt)

/-- `get_cutoff_dates` (job 5, `main_job.py` lines 37-95): the query filters
`process_control` by `process_nm`, inner-joins `consumption_cutoff` on the
previous month, takes `MAX(cnsmptn_cutoff_dt)` per process-control row
(`GROUP BY` all its derived columns) and computes `from_dt` by the
cutoff CASE and `to_dt = start_exec_dt`; `fetch_one` returns the first result
row, and no row means the raised `ValueError` (`none`). -/
def get_cutoff_dates (pc : List ProcessControlRow) (coff : List CutoffRow)
    (cutoff_process_nm : String) : Option (CalDate × CalDate) :=
  ((pc.filter (fun r => r.process_nm == cutoff_process_nm)).filterMap
    (cutoffRowResult coff)).head?

/-! ## Section D: consumption-detail transformation (job 5)

The warehouse tables touched by the main job, with dates/timestamps inside
this part of the model as day numbers (`Int`): the SQL only ever compares
them, adds day offsets, and tests `BETWEEN`.  `stg_src_table` carries the
superset of source columns the two paths read. -/

/-- A row of the staging source table (`context.stg_src_table`). -/
structure SrcRow where
  /-- `a.{context.dt_subs_date_column}` (default `brdcst_start_est_dt`). -/
  event_dt : Int
  cnsmd_srvc_cd : String
  device_id : String
  /-- `a.{context.link_id}` (default `cnsmptn_id`). -/
  link_id : Nat
  /-- `a.{context.start_est_dt}`, the date-window column. -/
  start_est_dt : Int
  /-- `a.trip_start_est_ts::date` (TRIP path). -/
  trip_start_est_dt : Int
  /-- `a.trip_end_est_ts::date` (TRIP path). -/
  trip_end_est_dt : Int
  deriving Repr, DecidableEq

/-- A row of `edw_ods.{context.ods_table_subscription_link}`. -/
structure LinkRow where
  link_id : Nat
  sbscrptn_key_id : Nat
  sbscrptn_subtype_prdct_catg_cd : String
  deriving Repr, DecidableEq

/-- A row of `context.stg_table_dt_subs` (the dedup target). -/
structure SubsRow where
  event_dt : Int
  sbscrptn_key_id : Nat
  cnsmd_srvc_cd : String
  cnsumd_veh_device_id : String
  sbscrptn_subtype_prdct_catg_cd : String
  deriving Repr, DecidableEq

/-- A grouped row with its `count(1) rec_cnt` occurrence count. -/
structure GRow where
  row : SubsRow
  rec_cnt : Nat
  deriving Repr, DecidableEq

/-- The `row_number() over (partition by ...)` partition key:
(date, subscription key, consumed service code). -/
def partKey (g : GRow) : Int × Nat × String :=
  (g.row.event_dt, g.row.sbscrptn_key_id, g.row.cnsmd_srvc_cd)

/-- `GROUP BY` the full projected tuple with `count(1)`: one `GRow` per
distinct tuple, counting its occurrences. -/
def groupCount (l : List SubsRow) : List GRow :=
  (distinctKeys l).map fun k => ⟨k, l.count k⟩

/-- First row with the maximal `rec_cnt` (the `rnk = 1` survivor of
`row_number() ... order by rec_cnt desc`; ties go to the earlier row of the
underlying order). -/
def pickMaxCnt : List GRow → Option GRow
  | [] => none
  | x :: xs =>
    match pickMaxCnt xs with
    | none => some x
    | some y => some (if y.rec_cnt > x.rec_cnt then y else x)

/-- Keep exactly the rank-1 row of every (date, subscription key, service code)
partition. -/
def rankSelect (g : List GRow) : List GRow :=
  (distinctKeys (g.map partKey)).filterMap fun k =>
    pickMaxCnt (g.filter (fun r => partKey r == k))

/-- CONSUMPTION path inner join: source rows inside the buffered date window
(`a.start_est_dt >= from_dt - buffer and a.start_est_dt < to_dt + buffer`)
joined to the subscription-link table on `link_id`, projected to the
`stg_table_dt_subs` columns. -/
def consJoined (src : List SrcRow) (link : List LinkRow)
    (from_dt to_dt buffer : Int) : List SubsRow :=
  (src.filter fun a =>
      decide (from_dt - buffer ≤ a.start_est_dt) && decide (a.start_est_dt < to_dt + buffer)).flatMap
    fun a =>
      (link.filter fun b => b.link_id == a.link_id).map fun b =>
        { event_dt := a.event_dt
          sbscrptn_key_id := b.sbscrptn_key_id
          cnsmd_srvc_cd := a.cnsmd_srvc_cd
          cnsumd_veh_device_id := a.device_id
          sbscrptn_subtype_prdct_catg_cd := b.sbscrptn_subtype_prdct_catg_cd }

/-- The grouped (counted) CONSUMPTION input to the ranking step. -/
def consGrouped (src : List SrcRow) (link : List LinkRow)
    (from_dt to_dt buffer : Int) : List GRow :=
  groupCount (consJoined src link from_dt to_dt buffer)

/-- The deduplicated CONSUMPTION rows that the final insert writes
(the outer select drops `rec_cnt`). -/
def consOutput (src : List SrcRow) (link : List LinkRow)
    (from_dt to_dt buffer : Int) : List SubsRow :=
  (rankSelect (consGrouped src link from_dt to_dt buffer)).map (fun g => g.row)

/-- A row of the TRIP temp table `tmp_st_device_trip_dt_subs`:
distinct (trip start/end dates, subscription key, `'Audio'`, device cast to
`varchar(20)`, category) with `count(1) rec_cnt`. -/
structure TripTmpRow where
  trip_start_est_dt : Int
  trip_end_est_dt : Int
  sbscrptn_key_id : Nat
  cnsmd_srvc_cd : String
  cnsumd_veh_device_id : String
  sbscrptn_subtype_prdct_catg_cd : String
  deriving Repr, DecidableEq

/-- TRIP path join feeding the temp table (window on `trip_start_est_ts::date`). -/
def tripJoined (src : List SrcRow) (link : List LinkRow)
    (from_dt to_dt buffer : Int) : List TripTmpRow :=
  (src.filter fun a =>
      decide (from_dt - buffer ≤ a.trip_start_est_dt) && decide (a.trip_start_est_dt < to_dt + buffer)).flatMap
    fun a =>
      (link.filter fun b => b.link_id == a.link_id).map fun b =>
        { trip_start_est_dt := a.trip_start_est_dt
          trip_end_est_dt := a.trip_end_est_dt
          sbscrptn_key_id := b.sbscrptn_key_id
          cnsmd_srvc_cd := "Audio"
          cnsumd_veh_device_id := ⟨a.device_id.data.take 20⟩
          sbscrptn_subtype_prdct_catg_cd := b.sbscrptn_subtype_prdct_catg_cd }

/-- `create temp table tmp_st_device_trip_dt_subs as select distinct ...
count(1) rec_cnt ... group by 1,2,3,4,5,6`. -/
def tripTmpTable (src : List SrcRow) (link : List LinkRow)
    (from_dt to_dt buffer : Int) : List (TripTmpRow × Nat) :=
  let joined := tripJoined src link from_dt to_dt buffer
  (distinctKeys joined).map fun k => (k, joined.count k)

/-- TRIP path date expansion: join the temp table to `edw_datamart.dim_date`
on `dd.clndr_dt between trip_start_est_dt and trip_end_est_dt`, keeping the
`SELECT distinct` over the projected (date, key, service, device, category,
`rec_cnt`) tuples. -/
def tripExpanded (src : List SrcRow) (link : List LinkRow) (dimDate : List Int)
    (from_dt to_dt buffer : Int) : List GRow :=
  distinctKeys
    ((tripTmpTable src link from_dt to_dt buffer).flatMap fun tr =>
      (dimDate.filter fun dd =>
          decide (tr.1.trip_start_est_dt ≤ dd) && decide (dd ≤ tr.1.trip_end_est_dt)).map
        fun dd =>
          { row :=
              { event_dt := dd
                sbscrptn_key_id := tr.1.sbscrptn_key_id
                cnsmd_srvc_cd := tr.1.cnsmd_srvc_cd
                cnsumd_veh_device_id := tr.1.cnsumd_veh_device_id
                sbscrptn_subtype_prdct_catg_cd := tr.1.sbscrptn_subtype_prdct_catg_cd }
            rec_cnt := tr.2 })

/-- The deduplicated TRIP rows that the final insert writes. -/
def tripOutput (src : List SrcRow) (link : List LinkRow) (dimDate : List Int)
    (from_dt to_dt buffer : Int) : List SubsRow :=
  (rankSelect (tripExpanded src link dimDate from_dt to_dt buffer)).map (fun g => g.row)

/-- A row of `edw_datamart.dim_subscription` (columns the detail insert reads;
nullable warehouse columns are `Option`-typed). -/
structure DimSubscriptionRow where
  sbscrptn_key_id : Nat
  sbscrptn_id : String
  short_sbscrptn_id : String
  sbscrbr_id : String
  audio_srvc_id : Option String
  strmng_srvc_id : Option String
  curr_audio_srvc_subtype_cd : Option String
  curr_strmng_srvc_subtype_cd : Option String
  audio_trial_start_dt : Option Int
  audio_trial_end_dt : Option Int
  strmng_trial_start_dt : Option Int
  strmng_trial_end_dt : Option Int
  /-- `Trunc(b.STRMNG_ACTVTN_TS)` date part. -/
  strmng_actvtn_dt : Option Int
  strmng_promo_durn_day_month_cd : Option String
  audio_self_pay_start_dt : Option Int
  audio_self_pay_end_dt : Option Int
  strmng_self_pay_start_dt : Option Int
  strmng_self_pay_end_dt : Option Int
  strmng_promo_cd : Option String
  strmng_rgstrtn_zip_cd : Option String
  device_id : Option String
  sbscrptn_subtype_prdct_catg_cd : Option String
  deriving Repr, DecidableEq

/-- A row of `edw_datamart.DIM_STREAMING_PROMO`. -/
structure DimPromoRow where
  strmng_promo_cd : String
  strmng_promo_key_id : Nat
  rec_eff_ts : Int
  rec_exp_ts : Int
  deriving Repr, DecidableEq

/-- A row of `edw_ods.v_service_subtype`. -/
structure SrvcSubtypeRow where
  srvc_subtype_cd : String
  srvc_type_cd : String
  deriving Repr, DecidableEq

/-- Day number standing for the date literal `'2999-12-31'`. -/
def dHighDate : Int := 376200

/-- Day number standing for the date literal `'1970-01-01'` (the epoch). -/
def dEpoch : Int := 0

/-- `UPPER(...)` on a possibly NULL string. -/
def upperOpt : Option String → Option String
  | none => none
  | some s => some s.toUpper

/-- A row of `context.stg_table_dt_subs_dtl` (all inserted columns). -/
structure DtlRow where
  event_dt : Int
  sbscrptn_key_id : Nat
  cnsmd_srvc_cd : String
  sbscrptn_id : Option String
  short_sbscrptn_id : Option String
  sbscrbr_id : Option String
  audio_srvc_id : Option String
  strmng_srvc_id : Option String
  srvc_subtype_cd : Option String
  srvc_type_cd : String
  trial_start_est_dt : Int
  trial_end_est_dt : Int
  trial_actvtn_est_dt : Int
  trial_durn_cd : Option String
  sbscrptn_start_dt : Int
  sbscrptn_end_dt : Int
  strmng_promo_key_id : Option Nat
  strmng_promo_cd : Option String
  strmng_rgstrtn_zip_cd : Option String
  cnsumd_veh_device_id : String
  sbscrptn_device_id : Option String
  create_ts : Int
  sbscrptn_subtype_prdct_catg_cd : String
  deriving Repr, DecidableEq

/-- One projected detail row, given the `dt_subs` row `a` and its (possibly
NULL) left-join partners: `b = dim_subscription`, `c = DIM_STREAMING_PROMO`,
`aud`/`str` the two `v_service_subtype` aliases.  Every CASE / COALESCE of the
insert's select list is translated clause by clause; a comparison whose operand
is NULL is false, as in SQL. -/
def dtlProject (a : SubsRow) (b : Option DimSubscriptionRow) (c : Option DimPromoRow)
    (aud str : Option SrvcSubtypeRow) (now : Int) : DtlRow :=
  let audType : Option String := aud.map (fun r => r.srvc_type_cd)
  let strType : Option String := str.map (fun r => r.srvc_type_cd)
  { event_dt := a.event_dt
    sbscrptn_key_id := a.sbscrptn_key_id
    cnsmd_srvc_cd := a.cnsmd_srvc_cd
    sbscrptn_id := b.map (fun r => r.sbscrptn_id)
    short_sbscrptn_id := b.map (fun r => r.short_sbscrptn_id)
    sbscrbr_id := b.map (fun r => r.sbscrbr_id)
    audio_srvc_id := b.bind (fun r => r.audio_srvc_id)
    strmng_srvc_id := b.bind (fun r => r.strmng_srvc_id)
    srvc_subtype_cd :=
      if a.cnsmd_srvc_cd == "Audio" then b.bind (fun r => r.curr_audio_srvc_subtype_cd)
      else b.bind (fun r => r.curr_strmng_srvc_subtype_cd)
    srvc_type_cd :=
      ((if a.cnsmd_srvc_cd == "Audio" then audType else strType).getD "N/D")
    trial_start_est_dt :=
      if audType == some "T" then (b.bind (fun r => r.audio_trial_start_dt)).getD dHighDate
      else if strType == some "T" ||
          b.bind (fun r => r.sbscrptn_subtype_prdct_catg_cd) == some "AFL" then
        (b.bind (fun r => r.strmng_trial_start_dt)).getD dHighDate
      else dEpoch
    trial_end_est_dt :=
      if audType == some "T" then (b.bind (fun r => r.audio_trial_end_dt)).getD dHighDate
      else if strType == some "T" ||
          b.bind (fun r => r.sbscrptn_subtype_prdct_catg_cd) == some "AFL" then
        (b.bind (fun r => r.strmng_trial_end_dt)).getD dHighDate
      else dEpoch
    trial_actvtn_est_dt :=
      if a.cnsmd_srvc_cd == "Audio" then dHighDate
      else (b.bind (fun r => r.strmng_actvtn_dt)).getD dHighDate
    trial_durn_cd := b.bind (fun r => r.strmng_promo_durn_day_month_cd)
    sbscrptn_start_dt :=
      if audType == some "S" then (b.bind (fun r => r.audio_self_pay_start_dt)).getD dHighDate
      else if strType == some "S" then (b.bind (fun r => r.strmng_self_pay_start_dt)).getD dHighDate
      else dEpoch
    sbscrptn_end_dt :=
      if audType == some "S" then (b.bind (fun r => r.audio_self_pay_end_dt)).getD dHighDate
      else if strType == some "S" then (b.bind (fun r => r.strmng_self_pay_end_dt)).getD dHighDate
      else dEpoch
    strmng_promo_key_id := c.map (fun r => r.strmng_promo_key_id)
    strmng_promo_cd := b.bind (fun r => r.strmng_promo_cd)
    strmng_rgstrtn_zip_cd := b.bind (fun r => r.strmng_rgstrtn_zip_cd)
    cnsumd_veh_device_id := a.cnsumd_veh_device_id.toUpper
    sbscrptn_device_id := upperOpt (b.bind (fun r => r.device_id))
    create_ts := now
    sbscrptn_subtype_prdct_catg_cd := a.sbscrptn_subtype_prdct_catg_cd }

/-- The chained left-join select list of `process_subscription_detail`:
`stg_table_dt_subs a` left-joined to `dim_subscription b` on the key, to
`DIM_STREAMING_PROMO c` on the promo code and date window, and to the two
`v_service_subtype` aliases on the CASE-derived subtype codes. -/
def dtlInsertRows (subs : List SubsRow) (dimSub : List DimSubscriptionRow)
    (dimPromo : List DimPromoRow) (srvcSub : List SrvcSubtypeRow) (now : Int) :
    List DtlRow :=
  (leftJoin subs dimSub (fun a b => b.sbscrptn_key_id == a.sbscrptn_key_id)).flatMap
    fun ab =>
      let a := ab.1
      let b := ab.2
      (leftJoin [ab] dimPromo (fun _ c =>
          (b.bind (fun r => r.strmng_promo_cd)) == some c.strmng_promo_cd &&
          decide (c.rec_eff_ts ≤ a.event_dt) && decide (a.event_dt ≤ c.rec_exp_ts))).flatMap
        fun abc =>
          let c := abc.2
          let audKey : Option String :=
            if a.cnsmd_srvc_cd == "Audio" then b.bind (fun r => r.curr_audio_srvc_subtype_cd)
            else some "N/A"
          let strKey : Option String :=
            if a.cnsmd_srvc_cd == "SIR" then b.bind (fun r => r.curr_strmng_srvc_subtype_cd)
            else some "N/A"
          (leftJoin [abc] srvcSub (fun _ v => audKey == some v.srvc_subtype_cd)).flatMap
            fun x =>
              (leftJoin [x] srvcSub (fun _ v => strKey == some v.srvc_subtype_cd)).map
                fun y => dtlProject a b c x.2 y.2 now

/-- The warehouse state the main job reads and writes. -/
structure MartDb where
  stg_src : List SrcRow
  link : List LinkRow
  dim_date : List Int
  dim_subscription : List DimSubscriptionRow
  dim_streaming_promo : List DimPromoRow
  v_service_subtype : List SrvcSubtypeRow
  dt_subs : List SubsRow
  dt_subs_dtl : List DtlRow
  deriving Repr, DecidableEq

/-- `process_consumption_path` (job 5, lines 97-157): truncate
`stg_table_dt_subs`, then insert the deduplicated CONSUMPTION rows. -/
def process_consumption_path (db : MartDb) (from_dt to_dt buffer : Int) : MartDb :=
  { db with dt_subs := consOutput db.stg_src db.link from_dt to_dt buffer }

/-- `process_trip_path` (job 5, lines 159-233): build the trip temp table,
truncate `stg_table_dt_subs`, then insert the deduplicated TRIP rows. -/
def process_trip_path (db : MartDb) (from_dt to_dt buffer : Int) : MartDb :=
  { db with dt_subs := tripOutput db.stg_src db.link db.dim_date from_dt to_dt buffer }

/-- `process_subscription_detail` (job 5, lines 235-322): truncate
`stg_table_dt_subs_dtl`, then insert the joined detail rows (`sysdate` is the
`now` clock parameter). -/
def process_subscription_detail (db : MartDb) (now : Int) : MartDb :=
  { db with
    dt_subs_dtl :=
      dtlInsertRows db.dt_subs db.dim_subscription db.dim_streaming_promo
        db.v_service_subtype now }

/-- `count_records` (job 5, lines 324-352): `select count(*)` on the staging
`dt_subs` (source) and `dt_subs_dtl` (target) tables. -/
def count_records (db : MartDb) : Nat × Nat :=
  (db.dt_subs.length, db.dt_subs_dtl.length)

/-- The run-context fields `run_main_job` reads and writes (dates in this
section are day numbers, matching `MartDb`). -/
structure JobCtx where
  pc_is_idl_ind : String
  flow_path : String
  lookup_buffer_days : Int
  from_dt : Int
  to_dt : Int
  SRC_REC_QTY : Int
  INS_REC_QTY : Int
  batch_audit_detail_SRC_REC_QTY : Int
  batch_audit_detail_INS_REC_QTY : Int
  batch_audit_detail_ERR_REC_QTY : Int
  deriving Repr, DecidableEq

/-- The dictionary `run_main_job` returns. -/
structure RunResults where
  source_count : Nat
  target_count : Nat
  error_count : Int
  deriving Repr, DecidableEq

/-- `run_main_job` (job 5, lines 354-417).  The two date-range resolvers are
modelled in Sections B and C at string/calendar level; here their resolved
day-number results enter as `idlRange` (the parsed IDL execution timestamps)
and `cutoffRange` (the cutoff query's answer, `none` when it found no row and
`get_cutoff_dates` raised).  `hasConns` is the guard on the pre-job
connections; a `none` result is the job raising. -/
def run_main_job (ctx : JobCtx) (db : MartDb) (hasConns : Bool)
    (idlRange : Int × Int) (cutoffRange : Option (Int × Int)) (now : Int) :
    Option (MartDb × JobCtx × RunResults) :=
  if !hasConns then none
  else
    match (if ctx.pc_is_idl_ind == "Y" then some idlRange else cutoffRange) with
    | none => none
    | some (from_dt, to_dt) =>
      let db1 :=
        if ctx.flow_path == "TRIP" then
          process_trip_path db from_dt to_dt ctx.lookup_buffer_days
        else
          process_consumption_path db from_dt to_dt ctx.lookup_buffer_days
      let db2 := process_subscription_detail db1 now
      let counts := count_records db2
      let source_count := counts.1
      let target_count := counts.2
      let err : Int := (source_count : Int) - (target_count : Int)
      some (db2,
        { ctx with
          from_dt := from_dt
          to_dt := to_dt
          SRC_REC_QTY := (source_count : Int)
          INS_REC_QTY := (target_count : Int)
          batch_audit_detail_SRC_REC_QTY := (source_count : Int)
          batch_audit_detail_INS_REC_QTY := (target_count : Int)
          batch_audit_detail_ERR_REC_QTY := err },
        { source_count := source_count
          target_count := target_count
          error_count := err })

/-! ## Section E: parameter validation and the Glue entry point (jobs 6 and 7)

Python values as far as the parameter dictionaries and the context store them:
`PyVal.none` is Python's `None`. -/

inductive PyVal where
  | none
  | str (s : String)
  | int (n : Int)
  | bool (b : Bool)
  deriving Repr, DecidableEq

/-- Python `dict` lookup (`param in params` + `params[param]`). -/
def dictLookup (d : List (String × PyVal)) (k : String) : Option PyVal :=
  (d.find? (fun kv => kv.1 == k)).map (fun kv => kv.2)

/-- Is required parameter `p` missing: `p not in params or params[p] is None`. -/
def paramMissing (params : List (String × PyVal)) (p : String) : Bool :=
  match dictLookup params p with
  | Option.none => true
  | some PyVal.none => true
  | some _ => false

/-- `validate_job_params` (job 6, `argument_utils.py` lines 72-103): raise
`ValueError` for the first missing required parameter, then run the custom
validators (skipping absent/None parameters) and raise for the first failure;
return `True` when all pass. -/
def validate_job_params (params : List (String × PyVal)) (required_params : List String)
    (param_validators : List (String × (PyVal → Bool))) : Except String Bool :=
  match required_params.find? (paramMissing params) with
  | some p => Except.error ("Required parameter " ++ p ++ " is missing")
  | Option.none =>
    match param_validators.find? (fun pv =>
        match dictLookup params pv.1 with
        | Option.none => false
        | some PyVal.none => false
        | some v => !pv.2 v) with
    | some pv => Except.error ("Parameter " ++ pv.1 ++ " failed validation")
    | Option.none => Except.ok true

/-- The observable milestones of one `main()` run of `job_7/main.py`. -/
inductive GlueEvent where
  | configLoaded
  | configDefaulted
  | paramsValidated
  /-- `run_pre_job` called (this is where database connections are opened). -/
  | preJob
  | mainJob
  | postJob
  /-- `logging_utils.log_exception`: the exception logged with its traceback. -/
  | exceptionLogged
  /-- `run_post_job` re-run by the error handler to release resources. -/
  | cleanupPostJob
  /-- the cleanup run itself failed; the error is logged and swallowed. -/
  | cleanupErrorLogged
  deriving Repr, DecidableEq

/-- Did an `Except`-modelled phase succeed? -/
def exceptOk {ε α : Type} : Except ε α → Bool
  | Except.ok _ => true
  | Except.error _ => false

/-- `main` (job 7, `main.py` lines 29-113) as a function of the phase
outcomes: `configOk` is whether `load_config` succeeded (a failure is logged
and defaulted, not fatal); `params` the parsed CLI dictionary; `preR` is
`run_pre_job`'s outcome carrying the truthiness of its results dict; `mainR`
and `postR` the main/post phases; `cleanupR` the error-path `run_post_job`.
The result is the process exit code (0 on the fall-through success path,
1 via `sys.exit(1)`) and the ordered event trace. -/
def glue_main (configOk : Bool) (params : List (String × PyVal))
    (preR : Except Unit Bool) (mainR postR cleanupR : Except Unit Unit) :
    Nat × List GlueEvent :=
  let t0 := [if configOk then GlueEvent.configLoaded else GlueEvent.configDefaulted]
  match validate_job_params params ["JOB_NAME"] [] with
  | Except.error _ =>
    -- pre_job_results is still {} (falsy), so the handler skips the cleanup
    (1, t0 ++ [GlueEvent.exceptionLogged])
  | Except.ok _ =>
    match preR with
    | Except.error _ =>
      (1, t0 ++ [GlueEvent.paramsValidated, GlueEvent.preJob, GlueEvent.exceptionLogged])
    | Except.ok nonempty =>
      let cleanupTrace :=
        if nonempty then
          GlueEvent.cleanupPostJob ::
            (match cleanupR with
             | Except.error _ => [GlueEvent.cleanupErrorLogged]
             | Except.ok _ => [])
        else []
      match mainR with
      | Except.error _ =>
        (1, t0 ++ [GlueEvent.paramsValidated, GlueEvent.preJob, GlueEvent.mainJob,
          GlueEvent.exceptionLogged] ++ cleanupTrace)
      | Except.ok _ =>
        match postR with
        | Except.error _ =>
          (1, t0 ++ [GlueEvent.paramsValidated, GlueEvent.preJob, GlueEvent.mainJob,
            GlueEvent.postJob, GlueEvent.exceptionLogged] ++ cleanupTrace)
        | Except.ok _ =>
          (0, t0 ++ [GlueEvent.paramsValidated, GlueEvent.preJob, GlueEvent.mainJob,
            GlueEvent.postJob])

/-! ## Section F: the run `Context` (job 11, `src/context.py`)

The instance attribute dictionary of the `Context` object, in insertion
order.  `__init__` populates it with the fixed set of defaults; everything
below is about the methods, so the dictionary is arbitrary here. -/

/-- The attribute dictionary of a `Context` instance. -/
abbrev CtxVars := List (String × PyVal)

/-- The set (list) of context variable names. -/
def ctxNames (c : CtxVars) : List String := c.map (fun kv => kv.1)

/-- Python `hasattr(self, name)`. -/
def ctxHasattr (c : CtxVars) (n : String) : Bool := c.any (fun kv => kv.1 == n)

/-- `Context.set` (job 11, `context.py`): `setattr` only when the attribute
already exists, otherwise just a warning log. -/
def ctxSet (c : CtxVars) (n : String) (v : PyVal) : CtxVars :=
  if ctxHasattr c n then c.map (fun kv => if kv.1 == n then (kv.1, v) else kv) else c

/-- `Context.update`: `self.set` for every item of the dictionary. -/
def ctxUpdate (c : CtxVars) (vars : List (String × PyVal)) : CtxVars :=
  vars.foldl (fun acc kv => ctxSet acc kv.1 kv.2) c

/-- `Context.load_from_job_params`: `self.set` per parameter. -/
def load_from_job_params (c : CtxVars) (params : List (String × PyVal)) : CtxVars :=
  params.foldl (fun acc kv => ctxSet acc kv.1 kv.2) c

/-- `Context.load_from_env`: iterate the environment, apply the prefix and
include filters with Python truthiness (an empty prefix or empty include list
disables its filter), strip the prefix, try `json.loads` on the value (the
`parseJson` oracle) and fall back to the raw string. -/
def load_from_env (c : CtxVars) (env : List (String × String)) (pfx : String)
    (incl : Option (List String)) (parseJson : String → Option PyVal) : CtxVars :=
  env.foldl (fun acc kv =>
    if pfx ≠ "" && !kv.1.startsWith pfx then acc
    else if (match incl with
             | some l => !l.isEmpty && !l.contains (kv.1.drop pfx.length)
             | Option.none => false) then acc
    else
      let ck := kv.1.drop pfx.length
      match parseJson kv.2 with
      | some v => ctxSet acc ck v
      | Option.none => ctxSet acc ck (PyVal.str kv.2)) c

/-- Insert-or-overwrite into a Python dict (insertion order preserved,
overwritten keys keep their position). -/
def propsUpsert (l : List (String × String)) (k v : String) : List (String × String) :=
  if l.any (fun kv => kv.1 == k) then
    l.map (fun kv => if kv.1 == k then (k, v) else kv)
  else l ++ [(k, v)]

/-- One line of a `.properties` file: strip, skip blanks and `#` comments,
split on the first `=`. -/
def propsLine (props : List (String × String)) (line : String) : List (String × String) :=
  let line := line.trim
  if line ≠ "" && !line.startsWith "#" then
    match line.splitOn "=" with
    | [] => props
    | [_] => props
    | k :: rest => propsUpsert props k.trim ((String.intercalate "=" rest).trim)
  else props

/-- `load_properties_file` / the inline properties parsing of `load_from_s3`. -/
def parseProperties (content : String) : List (String × String) :=
  (content.splitOn "\n").foldl propsLine []

/-- `Context.load_from_file`: no-op when the path does not exist; `.json`
files go through `json.load` (the `jsonVars` oracle, `none` being a parse
error, which is caught and logged); `.properties` files through the
properties parser; any other extension only logs an error. -/
def load_from_file (c : CtxVars) (path : String) (pathExists : Bool)
    (jsonVars : Option (List (String × PyVal))) (content : String) : CtxVars :=
  if !pathExists then c
  else if path.endsWith ".json" then
    match jsonVars with
    | some vars => ctxUpdate c vars
    | Option.none => c
  else if path.endsWith ".properties" then
    ctxUpdate c ((parseProperties content).map (fun kv => (kv.1, PyVal.str kv.2)))
  else c

/-- `Context.load_from_s3`: a read failure or `.json` parse failure is logged
and re-raised (`Except.error`); an unsupported extension only logs and
returns. -/
def load_from_s3 (c : CtxVars) (key : String) (content : Option String)
    (jsonVars : String → Option (List (String × PyVal))) : Except Unit CtxVars :=
  match content with
  | Option.none => Except.error ()
  | some body =>
    if key.endsWith ".json" then
      match jsonVars body with
      | some vars => Except.ok (ctxUpdate c vars)
      | Option.none => Except.error ()
    else if key.endsWith ".properties" then
      Except.ok (ctxUpdate c ((parseProperties body).map (fun kv => (kv.1, PyVal.str kv.2))))
    else Except.ok c

/-! ## Concrete fixtures used by the witness theorems -/

/-- A run context in IDL mode on the default CONSUMPTION path. -/
def exCtx : JobCtx :=
  { pc_is_idl_ind := "Y"
    flow_path := "CONSUMPTION"
    lookup_buffer_days := 7
    from_dt := 0
    to_dt := 0
    SRC_REC_QTY := 0
    INS_REC_QTY := 0
    batch_audit_detail_SRC_REC_QTY := 0
    batch_audit_detail_INS_REC_QTY := 0
    batch_audit_detail_ERR_REC_QTY := 0 }

/-- An empty warehouse. -/
def exDb : MartDb :=
  { stg_src := []
    link := []
    dim_date := []
    dim_subscription := []
    dim_streaming_promo := []
    v_service_subtype := []
    dt_subs := []
    dt_subs_dtl := [] }

/-- The context after the example run (date range 0-10, all counts 0). -/
def exCtxAfter : JobCtx :=
  { exCtx with to_dt := 10 }

/-- A completed audit-detail row for job `JobA` (its presence does not block a
new Detail-Start for the same job name). -/
def exDetailRow : DetailRow :=
  { batch_detail_id := 1
    batch_id := 5
    job_nm := "JobA"
    process_status_cd := "Complete"
    batch_detail_start_ts := 0
    batch_detail_end_ts := some 1
    file_nm := "N/A"
    file_rcvd_ts := none
    file_size_in_bytes_qty := none
    src_table_nm := "s"
    tgt_table_nm := "t"
    src_rec_qty := some 0
    ins_rec_qty := some 0
    upd_rec_qty := some 0
    err_rec_qty := some 0 }

/-- Two grouped rows with distinct partition keys and distinct counts. -/
def exGRows : List GRow :=
  [⟨⟨0, 1, "Audio", "D1", "SXM"⟩, 3⟩, ⟨⟨1, 2, "SIR", "D2", "AFL"⟩, 2⟩]

/-- The example context switched to the TRIP flow path. -/
def exCtxTrip : JobCtx := { exCtx with flow_path := "TRIP" }

/-- The TRIP example context after the run. -/
def exCtxTripAfter : JobCtx := { exCtxTrip with to_dt := 10 }

/-! ## Lemmas and claim theorems -/

theorem mem_le_maxDetailId (db : AuditDb) (r : DetailRow) (h : r ∈ db) :
    r.batch_detail_id ≤ maxDetailId db := by
  induction db with
  | nil => cases h
  | cons x t ih =>
    rcases List.mem_cons.mp h with h1 | h2
    · subst h1
      exact Nat.le_max_left _ _
    · exact Nat.le_trans (ih h2) (Nat.le_max_right _ _)

theorem inProgressFor_startRow (db : AuditDb) (b : Nat) (j s t : String) (n : Nat) :
    inProgressFor j (startRow db b j s t n) = true := by
  simp [inProgressFor, startRow]

/-- C1: on a table with no `In Progress` row for the job name, Detail-Start
followed by Detail-Close touches exactly the row Detail-Start inserted: the
close lookup finds precisely the new row's identifier, the update maps the
table to the original rows plus that single row closed, and the closed row
went from `In Progress` to `Complete` with the end timestamp and the
source/inserted/updated/errored counts set. -/
theorem detail_start_then_close (db : AuditDb) (batch_id : Nat) (j src tgt : String)
    (t1 t2 : Nat) (s i u e : Int) (fn : String) (frt : Option String) (fs : Option Int)
    (hclean : db.filter (inProgressFor j) = []) :
    get_batch_detail_id (insert_batch_audit_detail db batch_id j src tgt t1) j =
      some (maxDetailId db + 1) ∧
    (startRow db batch_id j src tgt t1).process_status_cd = "In Progress" ∧
    update_batch_audit_detail (insert_batch_audit_detail db batch_id j src tgt t1)
        (maxDetailId db + 1) s i u e fn frt fs t2 =
      db ++ [closeRow (startRow db batch_id j src tgt t1) s i u e fn frt fs t2] ∧
    (closeRow (startRow db batch_id j src tgt t1) s i u e fn frt fs t2).process_status_cd =
      "Complete" ∧
    (closeRow (startRow db batch_id j src tgt t1) s i u e fn frt fs t2).batch_detail_end_ts =
      some t2 ∧
    (closeRow (startRow db batch_id j src tgt t1) s i u e fn frt fs t2).src_rec_qty = some s ∧
    (closeRow (startRow db batch_id j src tgt t1) s i u e fn frt fs t2).ins_rec_qty = some i ∧
    (closeRow (startRow db batch_id j src tgt t1) s i u e fn frt fs t2).upd_rec_qty = some u ∧
    (closeRow (startRow db batch_id j src tgt t1) s i u e fn frt fs t2).err_rec_qty = some e := by
  have hid : (startRow db batch_id j src tgt t1).batch_detail_id = maxDetailId db + 1 := rfl
  have hfilter :
      (insert_batch_audit_detail db batch_id j src tgt t1).filter (inProgressFor j) =
        [startRow db batch_id j src tgt t1] := by
    simp [insert_batch_audit_detail, List.filter_append, hclean,
      inProgressFor_startRow db batch_id j src tgt t1]
  refine ⟨?_, rfl, ?_, rfl, rfl, rfl, rfl, rfl, rfl⟩
  · rw [get_batch_detail_id, hfilter]
    simp [hid]
  · rw [update_batch_audit_detail, insert_batch_audit_detail, List.map_append]
    have hmap : db.map (fun r =>
        if r.batch_detail_id == maxDetailId db + 1 then
          closeRow r s i u e fn frt fs t2
        else r) = db := by
      conv_rhs => rw [← List.map_id db]
      refine List.map_congr_left ?_
      intro r hr
      have hle := mem_le_maxDetailId db r hr
      have hne : (r.batch_detail_id == maxDetailId db + 1) = false := by
        simp only [beq_eq_false_iff_ne, ne_eq]
        omega
      simp [hne]
    rw [hmap]
    simp [hid]

/-- C1 witness: starting then closing job `JobA` over a table holding one
completed `JobA` row updates exactly the freshly inserted row (identifier 2),
leaving the old row untouched. -/
theorem detail_start_then_close_witness :
    get_batch_detail_id (insert_batch_audit_detail [exDetailRow] 7 "JobA" "src" "tgt" 10)
      "JobA" = some 2 ∧
    update_batch_audit_detail (insert_batch_audit_detail [exDetailRow] 7 "JobA" "src" "tgt" 10)
        2 (100 : Int) 97 0 3 "N/A" none none 20 =
      [exDetailRow,
        closeRow (startRow [exDetailRow] 7 "JobA" "src" "tgt" 10) 100 97 0 3 "N/A" none none 20] := by
  have h := detail_start_then_close [exDetailRow] 7 "JobA" "src" "tgt" 10 20
    (100 : Int) 97 0 3 "N/A" none none (by decide)
  exact ⟨h.1, h.2.2.1⟩

theorem ctxNames_map_keep (c : CtxVars) (f : String × PyVal → String × PyVal)
    (hf : ∀ kv, (f kv).1 = kv.1) : ctxNames (c.map f) = ctxNames c := by
  induction c with
  | nil => rfl
  | cons kv t ih =>
    simp only [ctxNames, List.map_cons, List.map_map] at ih ⊢
    simp only [Function.comp, hf kv]
    exact congrArg _ (by simpa [ctxNames, List.map_map, Function.comp] using ih)

theorem ctxNames_ctxSet (c : CtxVars) (n : String) (v : PyVal) :
    ctxNames (ctxSet c n v) = ctxNames c := by
  unfold ctxSet
  split
  · exact ctxNames_map_keep c _ (by
      intro kv
      by_cases h : kv.1 == n <;> simp [h])
  · rfl

theorem ctxNames_foldl (step : CtxVars → α → CtxVars)
    (hstep : ∀ acc x, ctxNames (step acc x) = ctxNames acc) :
    ∀ (l : List α) (c : CtxVars), ctxNames (l.foldl step c) = ctxNames c := by
  intro l
  induction l with
  | nil => intro c; rfl
  | cons x t ih => intro c; simpa [hstep c x] using ih (step c x)

theorem ctxNames_ctxUpdate (c : CtxVars) (vars : List (String × PyVal)) :
    ctxNames (ctxUpdate c vars) = ctxNames c := by
  unfold ctxUpdate
  exact ctxNames_foldl (fun acc kv => ctxSet acc kv.1 kv.2)
    (fun acc kv => ctxNames_ctxSet acc kv.1 kv.2) vars c

theorem ctxNames_load_from_env (c : CtxVars) (env : List (String × String)) (pfx : String)
    (incl : Option (List String)) (pj : String → Option PyVal) :
    ctxNames (load_from_env c env pfx incl pj) = ctxNames c := by
  refine ctxNames_foldl _ ?_ env c
  intro acc kv
  simp only []
  split
  · rfl
  · split
    · rfl
    · cases pj kv.2 <;> simp [ctxNames_ctxSet]

/-- C10: `Context.set` mutates only existing context variables — setting an
unknown name leaves the context unchanged, `set` never changes the name set,
and `update`, `load_from_job_params`, `load_from_env`, `load_from_file` and
`load_from_s3` (when it returns) all preserve the set of variable names, so
the variable-name set never grows after construction. -/
theorem context_set_is_frame_preserving :
    ∀ (c : CtxVars) (n : String) (v : PyVal),
      (ctxHasattr c n = false → ctxSet c n v = c) ∧
      ctxNames (ctxSet c n v) = ctxNames c ∧
      (∀ vars, ctxNames (ctxUpdate c vars) = ctxNames c) ∧
      (∀ params, ctxNames (load_from_job_params c params) = ctxNames c) ∧
      (∀ env pfx incl pj, ctxNames (load_from_env c env pfx incl pj) = ctxNames c) ∧
      (∀ path ex jv ct, ctxNames (load_from_file c path ex jv ct) = ctxNames c) ∧
      (∀ key ct jv c', load_from_s3 c key ct jv = Except.ok c' → ctxNames c' = ctxNames c) := by
  intro c n v
  refine ⟨?_, ctxNames_ctxSet c n v, fun vars => ctxNames_ctxUpdate c vars,
    fun params => ctxNames_ctxUpdate c params,
    fun env pfx incl pj => ctxNames_load_from_env c env pfx incl pj, ?_, ?_⟩
  · intro h
    simp [ctxSet, h]
  · intro path ex jv ct
    unfold load_from_file
    split
    · rfl
    · split
      · cases jv <;> simp [ctxNames_ctxUpdate]
      · split
        · exact ctxNames_ctxUpdate _ _
        · rfl
  · intro key ct jv c' h
    unfold load_from_s3 at h
    cases ct with
    | none => cases h
    | some body =>
      simp only [] at h
      split at h
      · cases hj : jv body with
        | none => rw [hj] at h; cases h
        | some vars =>
          rw [hj] at h
          cases h
          exact ctxNames_ctxUpdate _ _
      · split at h
        · cases h
          exact ctxNames_ctxUpdate _ _
        · cases h
          rfl

/-- C10 witness: a concrete context with the single variable `batch_env`;
setting the unknown name `no_such_var` leaves it unchanged, and an update
touching both a known and an unknown name preserves the name set. -/
theorem context_set_is_frame_preserving_witness :
    ctxSet [("batch_env", PyVal.str "dev")] "no_such_var" (PyVal.int 3) =
      [("batch_env", PyVal.str "dev")] ∧
    ctxNames (ctxUpdate [("batch_env", PyVal.str "dev")]
      [("no_such_var", PyVal.int 3), ("batch_env", PyVal.str "qa")]) = ["batch_env"] := by
  refine ⟨(context_set_is_frame_preserving [("batch_env", PyVal.str "dev")]
    "no_such_var" (PyVal.int 3)).1 (by decide), ?_⟩
  rw [(context_set_is_frame_preserving [("batch_env", PyVal.str "dev")]
    "no_such_var" (PyVal.int 3)).2.2.1]
  rfl

/-- C8: whenever the required CLI parameter `JOB_NAME` is absent from the
parsed parameters or `None`, `validate_job_params` raises `ValueError` for the
missing parameter, the entry point never reaches `run_pre_job` (so no database
connection is attempted), and the process exits with status 1. -/
theorem missing_job_name_fails_before_pre_job (params : List (String × PyVal))
    (configOk : Bool) (preR : Except Unit Bool) (mainR postR cleanupR : Except Unit Unit)
    (hmiss : paramMissing params "JOB_NAME" = true) :
    validate_job_params params ["JOB_NAME"] [] =
      Except.error "Required parameter JOB_NAME is missing" ∧
    GlueEvent.preJob ∉ (glue_main configOk params preR mainR postR cleanupR).2 ∧
    (glue_main configOk params preR mainR postR cleanupR).1 = 1 := by
  have hval : validate_job_params params ["JOB_NAME"] [] =
      Except.error "Required parameter JOB_NAME is missing" := by
    simp [validate_job_params, List.find?, hmiss]
  refine ⟨hval, ?_, ?_⟩ <;>
    cases configOk <;> simp [glue_main, hval]

/-- C8 witness: with an empty parameter dictionary, validation fails with the
`JOB_NAME` error, no pre-job (database connection) event occurs, and the exit
code is 1. -/
theorem missing_job_name_fails_before_pre_job_witness :
    validate_job_params [] ["JOB_NAME"] [] =
      Except.error "Required parameter JOB_NAME is missing" ∧
    GlueEvent.preJob ∉
      (glue_main true [] (Except.ok true) (Except.ok ()) (Except.ok ()) (Except.ok ())).2 ∧
    (glue_main true [] (Except.ok true) (Except.ok ()) (Except.ok ()) (Except.ok ())).1 = 1 :=
  missing_job_name_fails_before_pre_job [] true (Except.ok true) (Except.ok ())
    (Except.ok ()) (Except.ok ()) (by decide)

/-- C9: the entry point exits 0 exactly when parameter validation and the
pre/main/post phases all succeed, and 1 otherwise; every non-zero exit logs
the exception (with traceback), and the error handler re-runs the post-job
cleanup exactly when the pre-job had produced (truthy) results and a later
phase failed — even a failing cleanup is swallowed, leaving the exit code 1. -/
theorem glue_main_exit_codes (configOk : Bool) (params : List (String × PyVal))
    (preR : Except Unit Bool) (mainR postR cleanupR : Except Unit Unit) :
    let out := glue_main configOk params preR mainR postR cleanupR
    (out.1 = 0 ∨ out.1 = 1) ∧
    (out.1 = 0 ↔
      (exceptOk (validate_job_params params ["JOB_NAME"] []) && exceptOk preR &&
        exceptOk mainR && exceptOk postR) = true) ∧
    (GlueEvent.exceptionLogged ∈ out.2 ↔ out.1 = 1) ∧
    (GlueEvent.cleanupPostJob ∈ out.2 ↔
      exceptOk (validate_job_params params ["JOB_NAME"] []) = true ∧
      preR = Except.ok true ∧ (exceptOk mainR && exceptOk postR) = false) := by
  cases hval : validate_job_params params ["JOB_NAME"] [] <;>
    cases preR <;> rename_i pre <;>
    cases mainR <;> cases postR <;> cases cleanupR <;> cases pre <;>
    cases configOk <;>
    simp [glue_main, hval, exceptOk]

/-- C2: after a successful run of the consumption-detail main job, the error
record count stored in the run context and returned in the results equals the
source count minus the target count, where the source count is the row count
of the staging `dt_subs` table and the target count the row count of the
staging `dt_subs_dtl` table (e.g. source 100 and target 97 give error 3). -/
theorem run_main_job_error_count (ctx : JobCtx) (db : MartDb) (hasConns : Bool)
    (idlRange : Int × Int) (cutoffRange : Option (Int × Int)) (now : Int)
    (db' : MartDb) (ctx' : JobCtx) (res : RunResults)
    (hrun : run_main_job ctx db hasConns idlRange cutoffRange now = some (db', ctx', res)) :
    res.source_count = db'.dt_subs.length ∧
    res.target_count = db'.dt_subs_dtl.length ∧
    res.error_count = (db'.dt_subs.length : Int) - (db'.dt_subs_dtl.length : Int) ∧
    ctx'.batch_audit_detail_ERR_REC_QTY = res.error_count ∧
    ctx'.batch_audit_detail_SRC_REC_QTY = (db'.dt_subs.length : Int) ∧
    ctx'.batch_audit_detail_INS_REC_QTY = (db'.dt_subs_dtl.length : Int) := by
  cases hasConns with
  | false => simp [run_main_job] at hrun
  | true =>
    rw [run_main_job] at hrun
    cases hdr : (if (ctx.pc_is_idl_ind == "Y") = true then some idlRange else cutoffRange) with
    | none => rw [hdr] at hrun; simp at hrun
    | some ft =>
      obtain ⟨f, t⟩ := ft
      rw [hdr] at hrun
      simp only [Bool.not_true, Bool.false_eq_true, if_false, count_records,
        Option.some.injEq, Prod.mk.injEq] at hrun
      obtain ⟨h1, h2, h3⟩ := hrun
      subst h1 h2 h3
      exact ⟨rfl, rfl, rfl, rfl, rfl, rfl⟩

/-- C2 witness: the example run on the empty warehouse in IDL mode succeeds
with source count 0, target count 0 and error count 0 − 0 = 0. -/
theorem run_main_job_error_count_witness :
    (⟨0, 0, 0⟩ : RunResults).error_count =
      (exDb.dt_subs.length : Int) - (exDb.dt_subs_dtl.length : Int) ∧
    exCtxAfter.batch_audit_detail_ERR_REC_QTY = (⟨0, 0, 0⟩ : RunResults).error_count :=
  let h := run_main_job_error_count exCtx exDb true (0, 10) none 5 exDb exCtxAfter
    ⟨0, 0, 0⟩ (by decide)
  ⟨h.2.2.1, h.2.2.2.1⟩

theorem length_filter_map_le (l : List DetailRow) (f : DetailRow → DetailRow)
    (p : DetailRow → Bool) (hf : ∀ x ∈ l, p (f x) = true → p x = true) :
    ((l.map f).filter p).length ≤ (l.filter p).length := by
  induction l with
  | nil => exact Nat.le_refl _
  | cons x t ih =>
    have iht := ih (fun y hy => hf y (List.mem_cons_of_mem x hy))
    simp only [List.map_cons, List.filter_cons]
    cases hfx : p (f x) with
    | true =>
      rw [hf x (List.mem_cons_self x t) hfx]
      simpa using iht
    | false =>
      simp only [Bool.false_eq_true, if_false]
      cases hx : p x with
      | false => simpa using iht
      | true =>
        simp only [if_true]
        exact Nat.le_trans iht (Nat.le_succ _)

theorem inProgressFor_closeRow (r : DetailRow) (j : String) (s i u e : Int)
    (fn : String) (frt : Option String) (fs : Option Int) (now : Nat) :
    inProgressFor j (closeRow r s i u e fn frt fs now) = false := by
  simp [inProgressFor, closeRow]

theorem audit_step_preserves_inv (db db' : AuditDb) (hstep : AuditStep db db')
    (hinv : InvUniqueInProgress db) : InvUniqueInProgress db' := by
  cases hstep with
  | start batch_id job_name src tgt now hguard =>
    intro j'
    rw [insert_batch_audit_detail, List.filter_append]
    by_cases hj : inProgressFor j' (startRow db batch_id job_name src tgt now) = true
    · have hjj : (job_name == j') = true := by
        simpa [inProgressFor, startRow] using hj
      have hjeq : job_name = j' := by
        exact eq_of_beq hjj
      subst hjeq
      rw [hguard]
      simp [hj]
    · simp only [Bool.not_eq_true] at hj
      simp only [List.filter_cons, hj, Bool.false_eq_true, if_false, List.filter_nil,
        List.append_nil]
      exact hinv j'
  | close job_name did s i u e fn frt fs now hget =>
    intro j'
    refine Nat.le_trans ?_ (hinv j')
    rw [update_batch_audit_detail]
    refine length_filter_map_le db _ _ ?_
    intro x _ hx
    by_cases hid : (x.batch_detail_id == did) = true
    · rw [if_pos hid] at hx
      rw [inProgressFor_closeRow] at hx
      cases hx
    · rw [if_neg hid] at hx
      exact hx

/-- C7: under single-flight execution per job name (Detail-Start only fires
when no `In Progress` row for that name exists, which is how `AuditStep.start`
is guarded), every table reachable by the audit-lifecycle operations has at
most one `In Progress` Batch Detail row per job name; moreover each single
step — Detail-Start's guarded insert and Detail-Close's move of the maximal
in-progress row to `Complete` — preserves that invariant. -/
theorem audit_lifecycle_at_most_one_in_progress :
    (∀ db : AuditDb, AuditReachable db → InvUniqueInProgress db) ∧
    (∀ db db' : AuditDb, InvUniqueInProgress db → AuditStep db db' →
      InvUniqueInProgress db') := by
  constructor
  · intro db h
    induction h with
    | init => intro j; simp [List.filter_nil]
    | step _ hstep ih => exact audit_step_preserves_inv _ _ hstep ih
  · intro db db' hinv hstep
    exact audit_step_preserves_inv db db' hstep hinv

/-- C7 witness: the table reached from empty by one Detail-Start of `JobA`
satisfies the at-most-one-in-progress invariant. -/
theorem audit_lifecycle_at_most_one_in_progress_witness :
    InvUniqueInProgress (insert_batch_audit_detail [] 5 "JobA" "s" "t" 0) :=
  audit_lifecycle_at_most_one_in_progress.1 _
    (AuditReachable.step AuditReachable.init
      (AuditStep.start [] 5 "JobA" "s" "t" 0 rfl))

theorem pickMaxCnt_cons_ne_none (a : GRow) (t : List GRow) :
    ∃ z, pickMaxCnt (a :: t) = some z := by
  simp only [pickMaxCnt]
  cases pickMaxCnt t <;> exact ⟨_, rfl⟩

theorem pickMaxCnt_mem (l : List GRow) (x : GRow) (h : pickMaxCnt l = some x) :
    x ∈ l := by
  induction l generalizing x with
  | nil => cases h
  | cons a t ih =>
    cases hp : pickMaxCnt t with
    | none =>
      simp only [pickMaxCnt, hp] at h
      cases h
      exact List.mem_cons_self a t
    | some y =>
      simp only [pickMaxCnt, hp] at h
      by_cases hc : y.rec_cnt > a.rec_cnt
      · rw [if_pos hc] at h
        cases h
        exact List.mem_cons_of_mem a (ih _ hp)
      · rw [if_neg hc] at h
        cases h
        exact List.mem_cons_self a t

theorem pickMaxCnt_ge (l : List GRow) (x : GRow) (h : pickMaxCnt l = some x) :
    ∀ y ∈ l, y.rec_cnt ≤ x.rec_cnt := by
  induction l generalizing x with
  | nil => cases h
  | cons a t ih =>
    cases hp : pickMaxCnt t with
    | none =>
      simp only [pickMaxCnt, hp] at h
      cases h
      intro y hy
      rcases List.mem_cons.mp hy with h1 | h2
      · subst h1; exact Nat.le_refl _
      · cases t with
        | nil => cases h2
        | cons b s =>
          obtain ⟨z, hz⟩ := pickMaxCnt_cons_ne_none b s
          rw [hz] at hp
          cases hp
    | some y' =>
      simp only [pickMaxCnt, hp] at h
      intro y hy
      rcases List.mem_cons.mp hy with h1 | h2
      · subst h1
        by_cases hc : y'.rec_cnt > y.rec_cnt
        · rw [if_pos hc] at h
          cases h
          exact Nat.le_of_lt hc
        · rw [if_neg hc] at h
          cases h
          exact Nat.le_refl _
      · have hle := ih y' hp y h2
        by_cases hc : y'.rec_cnt > a.rec_cnt
        · rw [if_pos hc] at h
          cases h
          exact hle
        · rw [if_neg hc] at h
          cases h
          exact Nat.le_trans hle (Nat.le_of_not_lt hc)

theorem filterMap_pick_filter_length (step : Int × Nat × String → Option GRow)
    (hkey : ∀ k x, step k = some x → partKey x = k) :
    ∀ keys : List (Int × Nat × String), keys.Nodup →
      (∀ k ∈ keys, (step k).isSome = true) →
      ∀ k, ((keys.filterMap step).filter (fun r => partKey r == k)).length =
        if k ∈ keys then 1 else 0 := by
  intro keys
  induction keys with
  | nil => intro _ _ k; simp
  | cons k' t ih =>
    intro hnd hsome k
    obtain ⟨hk'n, hndt⟩ := List.nodup_cons.mp hnd
    obtain ⟨x, hx⟩ : ∃ x, step k' = some x := by
      have := hsome k' (List.mem_cons_self k' t)
      cases hs : step k' with
      | none => rw [hs] at this; cases this
      | some x => exact ⟨x, rfl⟩
    have hxk : partKey x = k' := hkey k' x hx
    rw [List.filterMap_cons, hx]
    by_cases hk : k = k'
    · subst hk
      have hkm : (partKey x == k) = true := by rw [hxk]; exact beq_self_eq_true k
      simp only [List.filter_cons, hkm, if_true, List.length_cons]
      rw [ih hndt (fun k2 hk2 => hsome k2 (List.mem_cons_of_mem _ hk2)) k]
      simp [hk'n]
    · have hkm : (partKey x == k) = false := by
        rw [hxk]
        exact beq_false_of_ne (fun hcontra => hk hcontra.symm)
      simp only [List.filter_cons, hkm, Bool.false_eq_true, if_false]
      rw [ih hndt (fun k2 hk2 => hsome k2 (List.mem_cons_of_mem k' hk2)) k]
      have : (k ∈ k' :: t) ↔ (k ∈ t) := by
        constructor
        · intro hmem
          rcases List.mem_cons.mp hmem with h1 | h2
          · exact absurd h1 hk
          · exact h2
        · exact List.mem_cons_of_mem k'
      rw [if_congr this rfl rfl]

theorem rankSelect_step_key (g : List GRow) (k : Int × Nat × String) (x : GRow)
    (h : pickMaxCnt (g.filter (fun r => partKey r == k)) = some x) :
    partKey x = k := by
  have hx := pickMaxCnt_mem _ _ h
  have := List.of_mem_filter hx
  exact eq_of_beq this

/-- Every (date, subscription key, service code) group key of the grouped
input yields exactly one row in the ranking step's output, and absent keys
yield none. -/
theorem rankSelect_count_per_key (g : List GRow) (k : Int × Nat × String) :
    ((rankSelect g).filter (fun r => partKey r == k)).length =
      if k ∈ g.map partKey then 1 else 0 := by
  rw [rankSelect, distinctKeys]
  rw [filterMap_pick_filter_length _ (rankSelect_step_key g) _ (List.nodup_dedup _) ?_ k]
  · rw [if_congr List.mem_dedup rfl rfl]
  · intro k2 hk2
    have hk2m : k2 ∈ g.map partKey := List.mem_dedup.mp hk2
    obtain ⟨r, hr, hrk⟩ := List.mem_map.mp hk2m
    have hrf : r ∈ g.filter (fun r => partKey r == k2) :=
      List.mem_filter.mpr ⟨hr, by rw [hrk]; exact beq_self_eq_true k2⟩
    show (pickMaxCnt (g.filter (fun r => partKey r == k2))).isSome = true
    cases hf : g.filter (fun r => partKey r == k2) with
    | nil => rw [hf] at hrf; cases hrf
    | cons b s =>
      obtain ⟨z, hz⟩ := pickMaxCnt_cons_ne_none b s
      rw [hz]
      rfl

/-- Every row the ranking step keeps comes from the grouped input and carries
the maximal occurrence count of its partition. -/
theorem rankSelect_mem_max (g : List GRow) (x : GRow) (hx : x ∈ rankSelect g) :
    x ∈ g ∧ ∀ y ∈ g, partKey y = partKey x → y.rec_cnt ≤ x.rec_cnt := by
  rw [rankSelect] at hx
  obtain ⟨k, _, hk⟩ := List.mem_filterMap.mp hx
  have hxmem := pickMaxCnt_mem _ _ hk
  have hxg := List.mem_of_mem_filter hxmem
  have hxk : partKey x = k := rankSelect_step_key g k x hk
  refine ⟨hxg, ?_⟩
  intro y hy hyk
  have hyf : y ∈ g.filter (fun r => partKey r == k) :=
    List.mem_filter.mpr ⟨hy, by rw [hyk, hxk]; exact beq_self_eq_true k⟩
  exact pickMaxCnt_ge _ _ hk y hyf

theorem filterMap_pick_sublist (step : Int × Nat × String → Option GRow)
    (hkey : ∀ k x, step k = some x → partKey x = k) :
    ∀ keys : List (Int × Nat × String),
      ((keys.filterMap step).map partKey).Sublist keys := by
  intro keys
  induction keys with
  | nil => simp
  | cons k' t ih =>
    rw [List.filterMap_cons]
    cases hs : step k' with
    | none => exact ih.cons k'
    | some x =>
      rw [List.map_cons, hkey k' x hs]
      exact ih.cons₂ k'

/-- The ranking step's output has pairwise-distinct partition keys. -/
theorem rankSelect_keys_nodup (g : List GRow) :
    ((rankSelect g).map partKey).Nodup := by
  rw [rankSelect, distinctKeys]
  exact List.Nodup.sublist
    (filterMap_pick_sublist _ (rankSelect_step_key g) _) (List.nodup_dedup _)

/-- On an input that already holds exactly one row per partition, the ranking
step is the identity. -/
theorem rankSelect_eq_self (g : List GRow) (h : (g.map partKey).Nodup) :
    rankSelect g = g := by
  induction g with
  | nil => rfl
  | cons x t ih =>
    have hx_not : partKey x ∉ t.map partKey := (List.nodup_cons.mp (by simpa using h)).1
    have hndt : (t.map partKey).Nodup := (List.nodup_cons.mp (by simpa using h)).2
    rw [rankSelect, distinctKeys, List.Nodup.dedup h, List.map_cons]
    have hfilt_x : (x :: t).filter (fun r => partKey r == partKey x) = [x] := by
      rw [List.filter_cons]
      simp only [beq_self_eq_true, if_true]
      rw [List.filter_eq_nil_iff.mpr ?_]
      intro y hy
      simp only [Bool.not_eq_true, beq_eq_false_iff_ne, ne_eq]
      intro hcontra
      exact hx_not (hcontra ▸ List.mem_map_of_mem partKey hy)
    have hstep_x : pickMaxCnt ((x :: t).filter (fun r => partKey r == partKey x)) = some x := by
      rw [hfilt_x]; rfl
    rw [List.filterMap_cons, hstep_x]
    have htail : (t.map partKey).filterMap
        (fun k => pickMaxCnt ((x :: t).filter (fun r => partKey r == k))) =
        (t.map partKey).filterMap
        (fun k => pickMaxCnt (t.filter (fun r => partKey r == k))) := by
      refine List.filterMap_congr ?_
      intro k hk
      have hxk : (partKey x == k) = false :=
        beq_false_of_ne (fun hcontra => hx_not (hcontra ▸ hk))
      rw [List.filter_cons]
      simp only [hxk, Bool.false_eq_true, if_false]
    rw [htail]
    have hIH := ih hndt
    rw [rankSelect, distinctKeys, List.Nodup.dedup hndt] at hIH
    rw [hIH]

theorem rankSelect_idem (g : List GRow) :
    rankSelect (rankSelect g) = rankSelect g :=
  rankSelect_eq_self _ (rankSelect_keys_nodup g)

/-- C5: the ranking step is idempotent — on an input that already contains
exactly one row per (date, subscription key, service code) partition it
returns exactly that input, and hence applying it twice to unchanged input is
the same as applying it once. -/
theorem ranking_dedup_idempotent (g : List GRow) :
    ((g.map partKey).Nodup → rankSelect g = g) ∧
    rankSelect (rankSelect g) = rankSelect g :=
  ⟨rankSelect_eq_self g, rankSelect_idem g⟩

/-- C5 witness: a concrete two-partition input with one row per partition is
returned unchanged by the ranking step. -/
theorem ranking_dedup_idempotent_witness :
    (exGRows.map partKey).Nodup ∧ rankSelect exGRows = exGRows :=
  ⟨by decide, (ranking_dedup_idempotent exGRows).1 (by decide)⟩

theorem groupCount_keys (l : List SubsRow) (k : Int × Nat × String) :
    k ∈ (groupCount l).map partKey ↔
      k ∈ l.map (fun r => (r.event_dt, r.sbscrptn_key_id, r.cnsmd_srvc_cd)) := by
  simp only [groupCount, distinctKeys, List.map_map, List.mem_map, Function.comp,
    partKey, List.mem_dedup]

/-- C4: in `run_main_job`, the TRIP path runs exactly when the context
`flow_path` is `"TRIP"` and the CONSUMPTION path runs for every other value;
each path's insert fully determines the staging `dt_subs` table from the
source and link tables (the table was truncated, so its previous contents are
irrelevant); and each path's deduplication keeps, for every (date,
subscription key, service code) group of the joined, date-window-filtered
input, exactly one row, which comes from the grouped input and carries the
highest occurrence count of its partition (ties resolved by the ranking
order). -/
theorem path_selection_and_dedup (ctx : JobCtx) (db : MartDb) (hasConns : Bool)
    (idlRange : Int × Int) (cutoffRange : Option (Int × Int)) (now : Int)
    (db' : MartDb) (ctx' : JobCtx) (res : RunResults) (f t : Int)
    (hres : (if ctx.pc_is_idl_ind == "Y" then some idlRange else cutoffRange) = some (f, t))
    (hrun : run_main_job ctx db hasConns idlRange cutoffRange now = some (db', ctx', res)) :
    db'.dt_subs = (if ctx.flow_path == "TRIP"
      then tripOutput db.stg_src db.link db.dim_date f t ctx.lookup_buffer_days
      else consOutput db.stg_src db.link f t ctx.lookup_buffer_days) ∧
    (∀ pre predtl,
      (process_consumption_path { db with dt_subs := pre, dt_subs_dtl := predtl }
          f t ctx.lookup_buffer_days).dt_subs =
        (process_consumption_path db f t ctx.lookup_buffer_days).dt_subs) ∧
    (∀ pre predtl,
      (process_trip_path { db with dt_subs := pre, dt_subs_dtl := predtl }
          f t ctx.lookup_buffer_days).dt_subs =
        (process_trip_path db f t ctx.lookup_buffer_days).dt_subs) ∧
    (∀ k, ((rankSelect (consGrouped db.stg_src db.link f t ctx.lookup_buffer_days)).filter
        (fun r => partKey r == k)).length =
      if k ∈ (consJoined db.stg_src db.link f t ctx.lookup_buffer_days).map
          (fun r => (r.event_dt, r.sbscrptn_key_id, r.cnsmd_srvc_cd)) then 1 else 0) ∧
    (∀ x ∈ rankSelect (consGrouped db.stg_src db.link f t ctx.lookup_buffer_days),
      x ∈ consGrouped db.stg_src db.link f t ctx.lookup_buffer_days ∧
      ∀ y ∈ consGrouped db.stg_src db.link f t ctx.lookup_buffer_days,
        partKey y = partKey x → y.rec_cnt ≤ x.rec_cnt) ∧
    (∀ k, ((rankSelect (tripExpanded db.stg_src db.link db.dim_date f t
        ctx.lookup_buffer_days)).filter (fun r => partKey r == k)).length =
      if k ∈ (tripExpanded db.stg_src db.link db.dim_date f t
          ctx.lookup_buffer_days).map partKey then 1 else 0) ∧
    (∀ x ∈ rankSelect (tripExpanded db.stg_src db.link db.dim_date f t
        ctx.lookup_buffer_days),
      x ∈ tripExpanded db.stg_src db.link db.dim_date f t ctx.lookup_buffer_days ∧
      ∀ y ∈ tripExpanded db.stg_src db.link db.dim_date f t ctx.lookup_buffer_days,
        partKey y = partKey x → y.rec_cnt ≤ x.rec_cnt) := by
  refine ⟨?_, fun pre predtl => rfl, fun pre predtl => rfl,
    ?_, rankSelect_mem_max _, rankSelect_count_per_key _, rankSelect_mem_max _⟩
  · cases hasConns with
    | false => simp [run_main_job] at hrun
    | true =>
      rw [run_main_job, hres] at hrun
      simp only [Bool.not_true, Bool.false_eq_true, if_false, count_records,
        Option.some.injEq, Prod.mk.injEq] at hrun
      obtain ⟨h1, _, _⟩ := hrun
      subst h1
      cases hflow : ctx.flow_path == "TRIP" with
      | true =>
        simp only [hflow, if_true]
        rfl
      | false =>
        simp only [hflow, Bool.false_eq_true, if_false]
        rfl
  · intro k
    rw [rankSelect_count_per_key _ k]
    simp only [consGrouped]
    exact if_congr (groupCount_keys _ k) rfl rfl

/-- C4 witness: the example TRIP-mode run on the empty warehouse routes
through the TRIP path, leaving the staging table equal to the (empty) TRIP
output. -/
theorem path_selection_and_dedup_witness :
    exDb.dt_subs = (if exCtxTrip.flow_path == "TRIP"
      then tripOutput exDb.stg_src exDb.link exDb.dim_date 0 10 exCtxTrip.lookup_buffer_days
      else consOutput exDb.stg_src exDb.link 0 10 exCtxTrip.lookup_buffer_days) :=
  (path_selection_and_dedup exCtxTrip exDb true (0, 10) none 5 exDb exCtxTripAfter
    ⟨0, 0, 0⟩ 0 10 (by decide) (by decide)).1

theorem readDigit_eq (l : List Char) (n : Nat) (rest : List Char)
    (h : readDigit l = some (n, rest)) :
    l = Char.ofNat (48 + n) :: rest ∧ n ≤ 9 := by
  cases l with
  | nil => cases h
  | cons c cs =>
    simp only [readDigit] at h
    by_cases hd : 48 ≤ c.toNat ∧ c.toNat ≤ 57
    · rw [if_pos hd] at h
      cases h
      constructor
      · have hc : 48 + digitVal c = c.toNat := by
          unfold digitVal; omega
        rw [hc, Char.ofNat_toNat]
      · unfold digitVal; omega
    · rw [if_neg hd] at h
      cases h

theorem read2_eq (l : List Char) (n : Nat) (rest : List Char)
    (h : read2 l = some (n, rest)) : l = pad2 n ++ rest ∧ n ≤ 99 := by
  cases h1 : readDigit l with
  | none => simp [read2, h1] at h
  | some p =>
    obtain ⟨a, l1⟩ := p
    cases h2 : readDigit l1 with
    | none => simp [read2, h1, h2] at h
    | some q =>
      obtain ⟨b, l2⟩ := q
      simp only [read2, h1, h2, Option.some.injEq, Prod.mk.injEq] at h
      obtain ⟨hn, hrest⟩ := h
      subst hn hrest
      obtain ⟨hl, ha⟩ := readDigit_eq l a l1 h1
      obtain ⟨hl1, hb⟩ := readDigit_eq l1 b l2 h2
      subst hl1
      subst hl
      constructor
      · have e1 : (10 * a + b) / 10 % 10 = a := by omega
        have e2 : (10 * a + b) % 10 = b := by omega
        simp only [pad2, e1, e2]
        rfl
      · omega

theorem read4_eq (l : List Char) (n : Nat) (rest : List Char)
    (h : read4 l = some (n, rest)) : l = pad4 n ++ rest ∧ n ≤ 9999 := by
  cases h1 : read2 l with
  | none => simp [read4, h1] at h
  | some p =>
    obtain ⟨a, l1⟩ := p
    cases h2 : read2 l1 with
    | none => simp [read4, h1, h2] at h
    | some q =>
      obtain ⟨b, l2⟩ := q
      simp only [read4, h1, h2, Option.some.injEq, Prod.mk.injEq] at h
      obtain ⟨hn, hrest⟩ := h
      subst hn hrest
      obtain ⟨hl, ha⟩ := read2_eq l a l1 h1
      obtain ⟨hl1, hb⟩ := read2_eq l1 b l2 h2
      subst hl1
      subst hl
      constructor
      · have e1 : (100 * a + b) / 100 % 100 = a := by omega
        have e2 : (100 * a + b) % 100 = b := by omega
        simp only [pad4, e1, e2, List.append_assoc]
      · omega

theorem expectCh_eq (c : Char) (l rest : List Char) (h : expectCh c l = some rest) :
    l = c :: rest := by
  cases l with
  | nil => cases h
  | cons x xs =>
    simp only [expectCh] at h
    by_cases hx : x = c
    · rw [if_pos hx] at h
      cases h
      rw [hx]
    · rw [if_neg hx] at h
      cases h

/-- A successful `strptime` means the input is exactly the canonical rendering
of the parsed value, and the value passed range validation. -/
theorem parseTs_eq (l : List Char) (v : DateTimeVal) (h : parseTs l = some v) :
    l = formatTsChars v ∧ validDateTime v = true := by
  cases hy : read4 l with
  | none => simp [parseTs, hy] at h
  | some py =>
    obtain ⟨y, l1⟩ := py
    cases hd1 : expectCh '-' l1 with
    | none => simp [parseTs, hy, hd1] at h
    | some l2 =>
      cases hmo : read2 l2 with
      | none => simp [parseTs, hy, hd1, hmo] at h
      | some pmo =>
        obtain ⟨mo, l3⟩ := pmo
        cases hd2 : expectCh '-' l3 with
        | none => simp [parseTs, hy, hd1, hmo, hd2] at h
        | some l4 =>
          cases hd : read2 l4 with
          | none => simp [parseTs, hy, hd1, hmo, hd2, hd] at h
          | some pd =>
            obtain ⟨d, l5⟩ := pd
            cases hsp : expectCh ' ' l5 with
            | none => simp [parseTs, hy, hd1, hmo, hd2, hd, hsp] at h
            | some l6 =>
              cases hh : read2 l6 with
              | none => simp [parseTs, hy, hd1, hmo, hd2, hd, hsp, hh] at h
              | some ph =>
                obtain ⟨hr, l7⟩ := ph
                cases hc1 : expectCh ':' l7 with
                | none => simp [parseTs, hy, hd1, hmo, hd2, hd, hsp, hh, hc1] at h
                | some l8 =>
                  cases hmi : read2 l8 with
                  | none => simp [parseTs, hy, hd1, hmo, hd2, hd, hsp, hh, hc1, hmi] at h
                  | some pmi =>
                    obtain ⟨mi, l9⟩ := pmi
                    cases hc2 : expectCh ':' l9 with
                    | none =>
                      simp [parseTs, hy, hd1, hmo, hd2, hd, hsp, hh, hc1, hmi, hc2] at h
                    | some l10 =>
                      cases hs : read2 l10 with
                      | none =>
                        simp [parseTs, hy, hd1, hmo, hd2, hd, hsp, hh, hc1, hmi, hc2,
                          hs] at h
                      | some ps =>
                        obtain ⟨sec, l11⟩ := ps
                        cases l11 with
                        | cons x xs =>
                          simp [parseTs, hy, hd1, hmo, hd2, hd, hsp, hh, hc1, hmi,
                            hc2, hs] at h
                        | nil =>
                          simp only [parseTs, hy, hd1, hmo, hd2, hd, hsp, hh, hc1,
                            hmi, hc2, hs] at h
                          by_cases hv : validDateTime ⟨y, mo, d, hr, mi, sec⟩ = true
                          · rw [if_pos hv] at h
                            cases h
                            refine ⟨?_, hv⟩
                            obtain ⟨hl, _⟩ := read4_eq l y l1 hy
                            have hl1 := expectCh_eq '-' l1 l2 hd1
                            obtain ⟨hl2, _⟩ := read2_eq l2 mo l3 hmo
                            have hl3 := expectCh_eq '-' l3 l4 hd2
                            obtain ⟨hl4, _⟩ := read2_eq l4 d l5 hd
                            have hl5 := expectCh_eq ' ' l5 l6 hsp
                            obtain ⟨hl6, _⟩ := read2_eq l6 hr l7 hh
                            have hl7 := expectCh_eq ':' l7 l8 hc1
                            obtain ⟨hl8, _⟩ := read2_eq l8 mi l9 hmi
                            have hl9 := expectCh_eq ':' l9 l10 hc2
                            obtain ⟨hl10, _⟩ := read2_eq l10 sec [] hs
                            subst hl10 hl9 hl8 hl7 hl6 hl5 hl4 hl3 hl2 hl1 hl
                            simp [formatTsChars, formatDateChars, List.append_assoc]
                          · rw [if_neg hv] at h
                            cases h

theorem formatDateChars_length (v : DateTimeVal) :
    (formatDateChars v).length = 10 := by
  simp [formatDateChars, pad4, pad2]

/-- C3: IDL date-range resolution is deterministic (the embedding is a pure
function of the two timestamp strings alone) and, for every pair of parseable
`"%Y-%m-%d %H:%M:%S"` timestamps, returns exactly the two inputs truncated to
their first ten characters — their `"%Y-%m-%d"` date parts. -/
theorem set_date_range_idl_truncates (s e : String) (vs ve : DateTimeVal)
    (hs : parseTs s.data = some vs) (he : parseTs e.data = some ve) :
    set_date_range_idl s e = some (⟨s.data.take 10⟩, ⟨e.data.take 10⟩) ∧
    set_date_range_idl s e = some (⟨formatDateChars vs⟩, ⟨formatDateChars ve⟩) := by
  have htrunc : ∀ (str : String) (v : DateTimeVal), parseTs str.data = some v →
      str.data.take 10 = formatDateChars v := by
    intro str v hv
    obtain ⟨hl, _⟩ := parseTs_eq str.data v hv
    rw [hl, formatTsChars, ← formatDateChars_length v]
    exact List.take_left _ _
  have hres : set_date_range_idl s e =
      some (⟨formatDateChars vs⟩, ⟨formatDateChars ve⟩) := by
    simp [set_date_range_idl, hs, he]
  refine ⟨?_, hres⟩
  rw [hres, htrunc s vs hs, htrunc e ve he]

/-- C3 witness: two concrete timestamps parse, and the resolver returns their
first ten characters, i.e. the literal date parts. -/
theorem set_date_range_idl_truncates_witness :
    set_date_range_idl "2024-03-31 23:59:59" "2024-04-01 00:00:00" =
      some (⟨("2024-03-31 23:59:59").data.take 10⟩, ⟨("2024-04-01 00:00:00").data.take 10⟩) ∧
    (⟨("2024-03-31 23:59:59").data.take 10⟩ : String) = "2024-03-31" :=
  ⟨(set_date_range_idl_truncates "2024-03-31 23:59:59" "2024-04-01 00:00:00"
      ⟨2024, 3, 31, 23, 59, 59⟩ ⟨2024, 4, 1, 0, 0, 0⟩ (by decide) (by decide)).1,
    by decide⟩

/-- C6: in non-IDL mode the resolver returns, for the (first) process-control
row of the configured process name, from-date = first day of the previous
month exactly when the run (start-execution) date falls on or before one day
after the consumption cutoff date (the `MAX` cutoff of the joined rows), and
first day of the current month otherwise; the to-date is the run date. -/
theorem get_cutoff_dates_formula (pc : List ProcessControlRow) (coff : List CutoffRow)
    (pname : String) (r : ProcessControlRow) (rest : List ProcessControlRow)
    (hfirst : pc.filter (fun x => x.process_nm == pname) = r :: rest)
    (c : CutoffRow) (cs : List CutoffRow)
    (hcut : cutoffMatches coff r = c :: cs) :
    get_cutoff_dates pc coff pname =
      some
        (if calLe r.start_exec_dt
            (nextDay (cs.foldl (fun acc x => calMax acc x.cnsmptn_cutoff_dt)
              c.cnsmptn_cutoff_dt))
          then firstDayOfPrevMonth r.start_exec_dt
          else firstDayOfCurrMonth r.start_exec_dt,
        r.start_exec_dt) := by
  have hrow : cutoffRowResult coff r =
      some
        (if calLe r.start_exec_dt
            (nextDay (cs.foldl (fun acc x => calMax acc x.cnsmptn_cutoff_dt)
              c.cnsmptn_cutoff_dt))
          then firstDayOfPrevMonth r.start_exec_dt
          else firstDayOfCurrMonth r.start_exec_dt,
        r.start_exec_dt) := by
    rw [cutoffRowResult, hcut]
  rw [get_cutoff_dates, hfirst, List.filterMap_cons, hrow]
  rfl

/-- C6 witness: with one process-control row (run date 2024-04-10) and one
cutoff row for the previous broadcast month (cutoff 2024-04-09), the run date
is exactly one day after the cutoff, so the range is
(2024-03-01, 2024-04-10). -/
theorem get_cutoff_dates_formula_witness :
    get_cutoff_dates [⟨"Fact_Summary", ⟨2024, 4, 10⟩⟩] [⟨2024, 3, ⟨2024, 4, 9⟩⟩]
      "Fact_Summary" = some (⟨2024, 3, 1⟩, ⟨2024, 4, 10⟩) := by
  rw [get_cutoff_dates_formula [⟨"Fact_Summary", ⟨2024, 4, 10⟩⟩]
    [⟨2024, 3, ⟨2024, 4, 9⟩⟩] "Fact_Summary" ⟨"Fact_Summary", ⟨2024, 4, 10⟩⟩ []
    (by decide) ⟨2024, 3, ⟨2024, 4, 9⟩⟩ [] (by decide)]
  decide

end S2P
